import Mathlib

/-!
Verification of the `emberTech` cloud-functions layer (`src/functions/index.js`).

The JavaScript source is shallowly embedded: the pure helpers
(`extractIdToken`, `mockSummarize`) become Lean functions on `String`;
the two request handlers (`getUserNotes`, `summarizeNote`) become pure
functions from an environment snapshot, an external-world oracle
(identity backend, document store, summarization backend) and a request
to an HTTP response.  The number of calls issued to the summarization
backend is returned alongside the response so that "never issues a
network call" is expressible.
-/

namespace EmberTech

/-- JavaScript whitespace (`\s`, `trim`): the characters that can occur in
the strings this code handles. -/
def isWs (c : Char) : Bool :=
  c == ' ' || c == '\t' || c == '\n' || c == '\r' ||
  c == '\x0b' || c == '\x0c' || c == '\u00A0' || c == '\u2028' || c == '\u2029'

/-- JavaScript `String.prototype.trim`: drop leading and trailing whitespace. -/
def jsTrim (s : String) : String :=
  String.mk (((s.data.dropWhile isWs).reverse.dropWhile isWs).reverse)

/-- `replace(/\s+/g, " ")`: each maximal whitespace run becomes one space. -/
def collapseWs : List Char → List Char
  | [] => []
  | [c] => if isWs c then [' '] else [c]
  | c :: d :: rest =>
      if isWs c then
        if isWs d then collapseWs (d :: rest)
        else ' ' :: collapseWs (d :: rest)
      else c :: collapseWs (d :: rest)

/-- The normalization in `mockSummarize`:
`String(text || "").trim().replace(/\s+/g, " ")`. -/
def normalize (s : String) : String :=
  String.mk (collapseWs (jsTrim s).data)

/-- Is `c` one of the sentence-ending characters `.`, `!`, `?`. -/
def isSentEnd (c : Char) : Bool :=
  c == '.' || c == '!' || c == '?'

/-- `t.split(/(?<=[.!?])\s+/)[0]`: the prefix up to and including the first
sentence-ending character that is immediately followed by whitespace; the
whole list when no such position exists. -/
def firstSeg : List Char → List Char
  | [] => []
  | [c] => [c]
  | c :: d :: rest =>
      if isSentEnd c && isWs d then [c]
      else c :: firstSeg (d :: rest)

/-- `mockSummarize` from `src/functions/index.js` (lines 53–59), embedded
character-for-character: normalize; empty → `"(Nota vacía)"`; otherwise take
the first sentence segment (with the source's `|| t.slice(0, 240)` fallback
kept, even though `split`'s first element is never empty); clip to 240
characters with `"…"` appended when longer; prefix `"Resumen: "`. -/
def mockSummarize (text : String) : String :=
  let t := normalize text
  if t = "" then "(Nota vacía)"
  else
    let s0 := firstSeg t.data
    let firstSentence := if s0.isEmpty then t.data.take 240 else s0
    let clipped :=
      if 240 < firstSentence.length then firstSentence.take 240 ++ ['…']
      else firstSentence
    String.mk ("Resumen: ".data ++ clipped)

/-- Line terminators, which `.` in a JavaScript regex does not match. -/
def isLineTerm (c : Char) : Bool :=
  c == '\n' || c == '\r' || c == '\u2028' || c == '\u2029'

/-- The regex `/^Bearer (.+)$/i` of `extractIdToken`: the string matches
iff its first seven characters case-insensitively spell `"Bearer "` and at
least one character follows, none of them a line terminator; the capture is
everything after the prefix. -/
def bearerMatch (s : String) : Option String :=
  if (s.data.take 7).map Char.toLower = "bearer ".data ∧ s.data.drop 7 ≠ [] ∧
      (s.data.drop 7).all (fun c => !(isLineTerm c)) then
    some (String.mk (s.data.drop 7))
  else none

/-- An inbound HTTP request as the handlers see it.  `queryId` is
`request.query.id`, `bodyId` is `request.body && request.body.id` (absent
body and absent field are indistinguishable downstream and are both `none`);
the two header fields are the property accesses
`request.headers.authorization` and `request.headers.Authorization`. -/
structure Req where
  queryId : Option String
  bodyId : Option String
  authorization : Option String
  Authorization : Option String

/-- JavaScript `a || b` on an optional string against a string default:
`undefined` and `""` are falsy. -/
def jsOrStr (a : Option String) (b : String) : String :=
  match a with
  | some s => if s = "" then b else s
  | none => b

/-- `request.headers.authorization || request.headers.Authorization || ""`. -/
def authHeader (req : Req) : String :=
  jsOrStr req.authorization (jsOrStr req.Authorization "")

/-- `extractIdToken` from `src/functions/index.js` (lines 44–51): match the
authorization header against `/^Bearer (.+)$/i`, return the capture, throw
otherwise. -/
def extractIdToken (req : Req) : Except String String :=
  match bearerMatch (authHeader req) with
  | some tok => Except.ok tok
  | none => Except.error "Missing or invalid Authorization header"

/-- A JSON value, for the response bodies the handlers build. -/
inductive Json where
  | str : String → Json
  | bool : Bool → Json
  | obj : List (String × Json) → Json
  | arr : List Json → Json

/-- A response body: `response.json(...)` or `response.send(...)`. -/
inductive HBody where
  | json : Json → HBody
  | text : String → HBody

/-- An HTTP response: status code plus body. -/
structure HttpResponse where
  status : Nat
  body : HBody

/-- A note document: the three alternative text fields consulted by
`summarizeNote` (`none` = field absent). -/
structure NoteDoc where
  content : Option String
  text : Option String
  body : Option String

/-- `data.content || data.text || data.body || ""` (line 108). -/
def noteText (d : NoteDoc) : String :=
  jsOrStr d.content (jsOrStr d.text (jsOrStr d.body ""))

/-- The environment variables the module reads (`none` = unset). -/
structure Env where
  FUNCTIONS_EMULATOR : Option String
  FIREBASE_AUTH_EMULATOR_HOST : Option String
  FIRESTORE_EMULATOR_HOST : Option String
  OPENAI_API_KEY : Option String
  openai_key : Option String
  USE_MOCK_OPENAI : Option String

/-- JavaScript `!!x` for an optional environment string. -/
def truthyOpt : Option String → Bool
  | some s => !(s == "")
  | none => false

/-- `isEmulator` (lines 32–34): `FUNCTIONS_EMULATOR === "true" ||
!!FIREBASE_AUTH_EMULATOR_HOST || !!FIRESTORE_EMULATOR_HOST`. -/
def isEmulator (e : Env) : Bool :=
  (e.FUNCTIONS_EMULATOR == some "true") ||
  truthyOpt e.FIREBASE_AUTH_EMULATOR_HOST ||
  truthyOpt e.FIRESTORE_EMULATOR_HOST

/-- `process.env.OPENAI_API_KEY || process.env.openai_key || ""` (line 97). -/
def apiKeyOf (e : Env) : String :=
  jsOrStr e.OPENAI_API_KEY (jsOrStr e.openai_key "")

/-- The summarization backend's reply as `summarizeNote` consumes it:
`ok` and the raw body text from `fetch`, and the value of
`choices?.[0]?.message?.content` once the body is parsed as JSON
(`Except.error` = `openAiResp.json()` threw). -/
structure FetchR where
  ok : Bool
  bodyText : String
  jsonContent : Except Unit (Option String)

/-- The external collaborators, as oracles: `verify` is
`getAuth().verifyIdToken` (`none` = it threw), `listNotes` returns the
documents of `users/{uid}/notes` as id/fields pairs (`Except.error` =
the store threw), `getNote` fetches one document (`Except.error` = the
store threw, `Except.ok none` = `!snap.exists`), and `fetchResp` is what
the single `fetch` to the summarization backend would yield
(`Except.error` = the network call threw). -/
structure World where
  verify : String → Option String
  listNotes : String → Except Unit (List (String × List (String × Json)))
  getNote : String → String → Except Unit (Option NoteDoc)
  fetchResp : Except Unit FetchR

/-- `getUserNotes` (lines 61–77): extract the bearer token, verify it,
list the caller's notes, map each to `{id, ...fields}`; every failure is
caught by the one `try/catch` and answered with plaintext 401. -/
def getUserNotes (w : World) (req : Req) : HttpResponse :=
  match extractIdToken req with
  | Except.error _ => ⟨401, HBody.text "Unauthorized"⟩
  | Except.ok tok =>
    match w.verify tok with
    | none => ⟨401, HBody.text "Unauthorized"⟩
    | some uid =>
      match w.listNotes uid with
      | Except.error _ => ⟨401, HBody.text "Unauthorized"⟩
      | Except.ok docs =>
        ⟨200, HBody.json (Json.obj [("notes",
          Json.arr (docs.map fun d => Json.obj (("id", Json.str d.1) :: d.2)))])⟩

/-- `mocked: true` response body (line 116). -/
def mockedBody (noteId summary : String) : Json :=
  Json.obj [("id", Json.str noteId), ("summary", Json.str summary),
            ("mocked", Json.bool true)]

/-- Live-path success response body (line 152): no `mocked` field. -/
def liveBody (noteId summary : String) : Json :=
  Json.obj [("id", Json.str noteId), ("summary", Json.str summary)]

/-- Line 81: `(request.query.id || (request.body && request.body.id) || "").trim()`. -/
def noteIdOf (req : Req) : String :=
  jsTrim (jsOrStr req.queryId (jsOrStr req.bodyId ""))

/-- `aiJson.choices?.[0]?.message?.content?.trim() || "(No summary)"`
(line 150). -/
def liveSummary (c : Option String) : String :=
  match c with
  | some s => if jsTrim s = "" then "(No summary)" else jsTrim s
  | none => "(No summary)"

/-- `summarizeNote` (lines 79–157).  The second component counts the calls
issued to the summarization backend (the single `fetch` at line 126). -/
def summarizeNote (e : Env) (w : World) (req : Req) : HttpResponse × Nat :=
  let noteId := noteIdOf req
  if noteId = "" then
    (⟨400, HBody.json (Json.obj [("error", Json.str "Missing note id")])⟩, 0)
  else
    match (match extractIdToken req with
           | Except.error _ => none
           | Except.ok tok => w.verify tok) with
    | none => (⟨401, HBody.json (Json.obj [("error", Json.str "Unauthorized")])⟩, 0)
    | some uid =>
      let apiKey := apiKeyOf e
      match w.getNote uid noteId with
      | Except.error _ =>
        (⟨500, HBody.json (Json.obj [("error", Json.str "Internal error")])⟩, 0)
      | Except.ok none =>
        (⟨404, HBody.json (Json.obj [("error", Json.str "Note not found")])⟩, 0)
      | Except.ok (some d) =>
        let text := noteText d
        if text = "" then
          (⟨400, HBody.json (Json.obj [("error",
            Json.str "Note has no text field (expected content/text/body)")])⟩, 0)
        else if (e.USE_MOCK_OPENAI == some "1") || (isEmulator e && (apiKey == "")) then
          (⟨200, HBody.json (mockedBody noteId (mockSummarize text))⟩, 0)
        else if apiKey = "" then
          (⟨500, HBody.json (Json.obj [("error",
            Json.str "OpenAI API key not configured")])⟩, 0)
        else
          match w.fetchResp with
          | Except.error _ =>
            (⟨500, HBody.json (Json.obj [("error", Json.str "Internal error")])⟩, 1)
          | Except.ok r =>
            if !r.ok then
              (⟨502, HBody.json (Json.obj [("error", Json.str "Failed to summarize"),
                ("details", Json.str r.bodyText)])⟩, 1)
            else
              match r.jsonContent with
              | Except.error _ =>
                (⟨500, HBody.json (Json.obj [("error", Json.str "Internal error")])⟩, 1)
              | Except.ok c =>
                (⟨200, HBody.json (liveBody noteId (liveSummary c))⟩, 1)

/-- The position of the first sentence-ending character that is immediately
followed by whitespace (the split point of the sentence-splitting step, as
the specification describes it). -/
def specSplitAt? : List Char → Option Nat
  | [] => none
  | [_] => none
  | c :: d :: rest =>
      if isSentEnd c && isWs d then some 0
      else (specSplitAt? (d :: rest)).map (· + 1)

/-- The specification's description of the mock summarizer, word for word:
split on sentence-ending punctuation followed by whitespace and keep the
first segment; *if no such split point exists, fall back to the first 240
characters of the normalized text*; truncate to 240 with an ellipsis only
when the chosen segment exceeds 240 characters. -/
def specMockSummarize (s : String) : String :=
  let t := normalize s
  if t = "" then "(Nota vacía)"
  else
    let seg :=
      match specSplitAt? t.data with
      | some i => t.data.take (i + 1)
      | none => t.data.take 240
    let clipped := if 240 < seg.length then seg.take 240 ++ ['…'] else seg
    String.mk ("Resumen: ".data ++ clipped)

/-- The mock summarizer as the code actually behaves: when no split point
exists the *whole* normalized text is the chosen segment (so a text longer
than 240 characters with no sentence break still gets the ellipsis). -/
def specMockSummarizeAmended (s : String) : String :=
  let t := normalize s
  if t = "" then "(Nota vacía)"
  else
    let seg :=
      match specSplitAt? t.data with
      | some i => t.data.take (i + 1)
      | none => t.data
    let clipped := if 240 < seg.length then seg.take 240 ++ ['…'] else seg
    String.mk ("Resumen: ".data ++ clipped)

theorem firstSeg_eq_spec : ∀ cs : List Char,
    firstSeg cs = (match specSplitAt? cs with
                   | some i => cs.take (i + 1)
                   | none => cs)
  | [] => rfl
  | [_] => rfl
  | c :: d :: rest => by
      have ih := firstSeg_eq_spec (d :: rest)
      by_cases h : (isSentEnd c && isWs d) = true
      · simp [firstSeg, specSplitAt?, h]
      · rw [Bool.not_eq_true] at h
        cases hsp : specSplitAt? (d :: rest) with
        | none =>
          rw [hsp] at ih
          simp [firstSeg, specSplitAt?, h, hsp, ih]
        | some i =>
          rw [hsp] at ih
          simp [firstSeg, specSplitAt?, h, hsp, ih]

theorem firstSeg_ne_nil : ∀ cs : List Char, cs ≠ [] → firstSeg cs ≠ []
  | [], h => absurd rfl h
  | [c], _ => by simp [firstSeg]
  | c :: d :: rest, _ => by
      rw [firstSeg]
      split <;> simp

theorem data_nil_imp_empty {s : String} (h : s.data = []) : s = "" :=
  String.ext (h.trans rfl)

theorem mockSummarize_refines (s : String) :
    mockSummarize s = specMockSummarizeAmended s := by
  by_cases h : normalize s = ""
  · simp [mockSummarize, specMockSummarizeAmended, h]
  · have hd : (normalize s).data ≠ [] := fun hnil => h (data_nil_imp_empty hnil)
    have hfs := firstSeg_ne_nil _ hd
    have hemp : (firstSeg (normalize s).data).isEmpty = false := by
      cases hfe : firstSeg (normalize s).data with
      | nil => exact absurd hfe hfs
      | cons a l => rfl
    have hseg := firstSeg_eq_spec (normalize s).data
    cases hsp : specSplitAt? (normalize s).data with
    | some i =>
      rw [hsp] at hseg
      simp [mockSummarize, specMockSummarizeAmended, h, hsp, hseg, hemp, hd]
    | none =>
      rw [hsp] at hseg
      simp [mockSummarize, specMockSummarizeAmended, h, hsp, hseg, hemp, hd]

set_option maxRecDepth 4000 in
/-- C2 (counterexample): on a 241-character text with no sentence break the
code keeps the whole normalized text as the segment and therefore truncates
it to 240 characters *and appends the ellipsis*, while the claim's
procedure (fall back to the first 240 characters, ellipsis only when the
chosen segment exceeds 240) yields the same text without the ellipsis. -/
theorem mockSummarize_fallback_counterexample :
    mockSummarize (String.mk (List.replicate 241 'a')) ≠
      specMockSummarize (String.mk (List.replicate 241 'a')) ∧
    mockSummarize (String.mk (List.replicate 241 'a')) =
      String.mk ("Resumen: ".data ++ List.replicate 240 'a' ++ ['…']) ∧
    specMockSummarize (String.mk (List.replicate 241 'a')) =
      String.mk ("Resumen: ".data ++ List.replicate 240 'a') := by
  refine ⟨?_, by decide, by decide⟩
  decide

/-- C2 (amended): `mockSummarize` normalizes (trim, collapse whitespace runs
to one space), splits on sentence-ending punctuation (`.`, `!`, `?`)
followed by whitespace and keeps the first segment; if no such split point
exists the *whole normalized text* is the chosen segment; it truncates the
chosen segment to 240 characters and appends an ellipsis when that segment
exceeds 240 characters; and it prefixes the result with `"Resumen: "`.  In
particular `mockSummarize "Hello world. Second sentence."` is
`"Resumen: Hello world."`. -/
theorem claim_C2_mockSummarize_amended :
    (∀ s : String, mockSummarize s = specMockSummarizeAmended s) ∧
    mockSummarize "Hello world. Second sentence." = "Resumen: Hello world." :=
  ⟨mockSummarize_refines, by decide⟩

/-- C8: an input whose normalized form is empty is answered with the fixed
fallback string `"(Nota vacía)"`; in particular `""` and `"   "` both are. -/
theorem claim_C8_empty_note :
    (∀ s : String, normalize s = "" → mockSummarize s = "(Nota vacía)") ∧
    mockSummarize "" = "(Nota vacía)" ∧
    mockSummarize "   " = "(Nota vacía)" :=
  ⟨fun s h => by simp [mockSummarize, h], by decide, by decide⟩

theorem claim_C8_witness :
    normalize "  \t " = "" ∧ mockSummarize "  \t " = "(Nota vacía)" :=
  ⟨by decide, claim_C8_empty_note.1 "  \t " (by decide)⟩

theorem bearerMatch_some_iff (s t : String) :
    bearerMatch s = some t ↔
      ((s.data.take 7).map Char.toLower = "bearer ".data ∧
       s.data.drop 7 ≠ [] ∧
       (s.data.drop 7).all (fun c => !(isLineTerm c)) = true) ∧
      t = String.mk (s.data.drop 7) := by
  unfold bearerMatch
  split
  case isTrue hc =>
    simp only [Option.some.injEq]
    constructor
    · intro h; exact ⟨⟨hc.1, hc.2.1, hc.2.2⟩, h.symm⟩
    · intro h; exact h.2.symm
  case isFalse hc =>
    simp only [reduceCtorEq, false_iff, not_and]
    intro h1
    exact absurd ⟨h1.1, h1.2.1, h1.2.2⟩ hc

theorem extractIdToken_ok_iff (req : Req) (t : String) :
    extractIdToken req = Except.ok t ↔ bearerMatch (authHeader req) = some t := by
  unfold extractIdToken
  cases h : bearerMatch (authHeader req) <;> simp

theorem extractIdToken_error_of_none (req : Req)
    (h : bearerMatch (authHeader req) = none) :
    extractIdToken req = Except.error "Missing or invalid Authorization header" := by
  unfold extractIdToken
  rw [h]

/-- C3: whenever the effective authorization header value decomposes as a
seven-character case-insensitive `"Bearer "` prefix followed by a non-empty
token (with no line terminator, which the regex's `.` cannot match),
`extractIdToken` returns exactly that token — internal whitespace included;
whenever no such decomposition exists (header absent or not matching, e.g.
`"Basic abc"`), it fails with the missing-credential error.  It is a pure
function, so it has no side effects. -/
theorem claim_C3_extractIdToken :
    (∀ (req : Req) (P X : String), P.length = 7 →
        P.data.map Char.toLower = "bearer ".data →
        X ≠ "" → X.data.all (fun c => !(isLineTerm c)) = true →
        authHeader req = P ++ X →
        extractIdToken req = Except.ok X) ∧
    (∀ req : Req,
        (¬ ∃ P X : String, P.length = 7 ∧
            P.data.map Char.toLower = "bearer ".data ∧
            X ≠ "" ∧ X.data.all (fun c => !(isLineTerm c)) = true ∧
            authHeader req = P ++ X) →
        extractIdToken req = Except.error "Missing or invalid Authorization header") ∧
    extractIdToken ⟨none, none, some "Bearer abc", none⟩ = Except.ok "abc" ∧
    extractIdToken ⟨none, none, some "Basic abc", none⟩ =
      Except.error "Missing or invalid Authorization header" ∧
    extractIdToken ⟨none, none, none, none⟩ =
      Except.error "Missing or invalid Authorization header" := by
  refine ⟨?_, ?_, by rfl, by rfl, by rfl⟩
  · intro req P X hP hpre hX hall hauth
    have hP' : P.data.length = 7 := hP
    have hdata : (authHeader req).data = P.data ++ X.data := by rw [hauth]; exact rfl
    have htake : (authHeader req).data.take 7 = P.data := by
      rw [hdata, ← hP']; exact List.take_left _ _
    have hdrop : (authHeader req).data.drop 7 = X.data := by
      rw [hdata, ← hP']; exact List.drop_left _ _
    have hXd : X.data ≠ [] := fun hnil => hX (data_nil_imp_empty hnil)
    rw [extractIdToken_ok_iff, bearerMatch_some_iff]
    refine ⟨⟨?_, ?_, ?_⟩, ?_⟩
    · rw [htake]; exact hpre
    · rw [hdrop]; exact hXd
    · rw [hdrop]; exact hall
    · rw [hdrop]
  · intro req hno
    cases hbm : bearerMatch (authHeader req) with
    | none => exact extractIdToken_error_of_none req hbm
    | some t =>
      exfalso
      apply hno
      obtain ⟨⟨h1, h2, h3⟩, -⟩ := (bearerMatch_some_iff _ _).mp hbm
      have hlen : 7 ≤ (authHeader req).data.length := by
        by_contra hlt
        exact h2 (List.drop_eq_nil_iff.mpr (Nat.le_of_lt (Nat.lt_of_not_le hlt)))
      refine ⟨String.mk ((authHeader req).data.take 7),
              String.mk ((authHeader req).data.drop 7), ?_, h1, ?_, h3, ?_⟩
      · show ((authHeader req).data.take 7).length = 7
        rw [List.length_take]
        exact Nat.min_eq_left hlen
      · intro he
        exact h2 (by simpa using congrArg String.data he)
      · apply String.ext
        show (authHeader req).data =
          (authHeader req).data.take 7 ++ (authHeader req).data.drop 7
        exact (List.take_append_drop 7 _).symm

theorem claim_C3_witness :
    extractIdToken ⟨none, none, some "bearer a b", none⟩ = Except.ok "a b" :=
  claim_C3_extractIdToken.1 ⟨none, none, some "bearer a b", none⟩
    "bearer " "a b" rfl (by decide) (by decide) (by decide) (by rfl)

/-- C9: a successfully extracted token is never the empty string — the
regex demands at least one character after `"Bearer "` — and in particular
the header values `"Bearer "` and `"Bearer"` fail. -/
theorem claim_C9_nonempty_token :
    (∀ (req : Req) (t : String), extractIdToken req = Except.ok t → t ≠ "") ∧
    extractIdToken ⟨none, none, some "Bearer ", none⟩ =
      Except.error "Missing or invalid Authorization header" ∧
    extractIdToken ⟨none, none, some "Bearer", none⟩ =
      Except.error "Missing or invalid Authorization header" := by
  refine ⟨?_, by rfl, by rfl⟩
  intro req t hok
  obtain ⟨⟨-, h2, -⟩, ht⟩ :=
    (bearerMatch_some_iff _ _).mp ((extractIdToken_ok_iff req t).mp hok)
  subst ht
  intro he
  exact h2 (by simpa using congrArg String.data he)

theorem claim_C9_witness :
    extractIdToken ⟨none, none, some "Bearer abc", none⟩ = Except.ok "abc" ∧
    ("abc" : String) ≠ "" :=
  ⟨by rfl, claim_C9_nonempty_token.1 ⟨none, none, some "Bearer abc", none⟩ "abc" (by rfl)⟩

theorem summarizeNote_missing_id (e : Env) (w : World) (req : Req)
    (h : noteIdOf req = "") :
    summarizeNote e w req =
      (⟨400, HBody.json (Json.obj [("error", Json.str "Missing note id")])⟩, 0) := by
  simp [summarizeNote, h]

/-- C5: the note id is the query parameter `id` when that is present and
truthy, otherwise the body field `id`, trimmed of surrounding whitespace;
whenever the trimmed result is empty the handler answers 400
`{error: "Missing note id"}` for every environment and every external
world — in particular regardless of the request's credential. -/
theorem claim_C5_note_id :
    (∀ (req : Req) (q : String), req.queryId = some q → q ≠ "" →
        noteIdOf req = jsTrim q) ∧
    (∀ req : Req, (req.queryId = none ∨ req.queryId = some "") →
        noteIdOf req = jsTrim (jsOrStr req.bodyId "")) ∧
    (∀ (e : Env) (w : World) (req : Req), noteIdOf req = "" →
        summarizeNote e w req =
          (⟨400, HBody.json (Json.obj [("error", Json.str "Missing note id")])⟩, 0)) := by
  refine ⟨?_, ?_, fun e w req h => summarizeNote_missing_id e w req h⟩
  · intro req q hq hne
    simp [noteIdOf, jsOrStr, hq, hne]
  · intro req hq
    cases hq with
    | inl h => simp [noteIdOf, jsOrStr, h]
    | inr h => simp [noteIdOf, jsOrStr, h]

def reqNoId : Req := ⟨none, some "  ", some "Bearer abc", none⟩

def envPlain : Env := ⟨none, none, none, none, none, none⟩

def wEmpty : World :=
  ⟨fun _ => none, fun _ => Except.error (), fun _ _ => Except.error (),
   Except.error ()⟩

theorem claim_C5_witness :
    noteIdOf reqNoId = "" ∧
    summarizeNote envPlain wEmpty reqNoId =
      (⟨400, HBody.json (Json.obj [("error", Json.str "Missing note id")])⟩, 0) :=
  ⟨by decide, claim_C5_note_id.2.2 envPlain wEmpty reqNoId (by decide)⟩

theorem jsTrim_eq_empty_of_all_ws {q : String} (h : q.data.all isWs = true) :
    jsTrim q = "" := by
  apply data_nil_imp_empty
  show (((q.data.dropWhile isWs).reverse.dropWhile isWs).reverse) = []
  have h1 : q.data.dropWhile isWs = [] :=
    List.dropWhile_eq_nil_iff.mpr fun a ha => by
      exact List.all_eq_true.mp h a ha
  rw [h1]
  rfl

/-- C10: when the query parameter `id` is present and truthy but consists
only of whitespace, the handler answers 400 `{error: "Missing note id"}`
even when the request body carries a non-empty `id` field: the query value
is selected before trimming, so the body field is never consulted. -/
theorem claim_C10_ws_query_id :
    ∀ (e : Env) (w : World) (req : Req) (q b : String),
      req.queryId = some q → q ≠ "" → q.data.all isWs = true →
      req.bodyId = some b → b ≠ "" →
      summarizeNote e w req =
        (⟨400, HBody.json (Json.obj [("error", Json.str "Missing note id")])⟩, 0) := by
  intro e w req q b hq hqne hws _ _
  apply summarizeNote_missing_id
  show jsTrim (jsOrStr req.queryId (jsOrStr req.bodyId "")) = ""
  rw [hq]
  show jsTrim (if q = "" then jsOrStr req.bodyId "" else q) = ""
  rw [if_neg hqne]
  exact jsTrim_eq_empty_of_all_ws hws

def reqWsId : Req := ⟨some " ", some "n1", some "Bearer abc", none⟩

theorem claim_C10_witness :
    reqWsId.queryId = some " " ∧ (" " : String) ≠ "" ∧
    (" " : String).data.all isWs = true ∧ reqWsId.bodyId = some "n1" ∧
    summarizeNote envPlain wEmpty reqWsId =
      (⟨400, HBody.json (Json.obj [("error", Json.str "Missing note id")])⟩, 0) :=
  ⟨rfl, by decide, by decide, rfl,
   claim_C10_ws_query_id envPlain wEmpty reqWsId " " "n1" rfl (by decide) (by decide)
     rfl (by decide)⟩

/-- C6: in `getUserNotes` every failure — credential extraction, identity
verification, or reading the notes collection — is answered identically
with HTTP 401 and the *plaintext* body `"Unauthorized"`, so a store failure
is indistinguishable from an authentication failure to the caller; in
`summarizeNote` an authentication failure is answered with HTTP 401 and the
distinct *JSON* body `{error: "Unauthorized"}`. -/
theorem claim_C6_unauthorized_shapes :
    (∀ (w : World) (req : Req) (m : String),
        extractIdToken req = Except.error m →
        getUserNotes w req = ⟨401, HBody.text "Unauthorized"⟩) ∧
    (∀ (w : World) (req : Req) (tok : String),
        extractIdToken req = Except.ok tok → w.verify tok = none →
        getUserNotes w req = ⟨401, HBody.text "Unauthorized"⟩) ∧
    (∀ (w : World) (req : Req) (tok uid : String),
        extractIdToken req = Except.ok tok → w.verify tok = some uid →
        w.listNotes uid = Except.error () →
        getUserNotes w req = ⟨401, HBody.text "Unauthorized"⟩) ∧
    (∀ (e : Env) (w : World) (req : Req) (m : String),
        noteIdOf req ≠ "" → extractIdToken req = Except.error m →
        summarizeNote e w req =
          (⟨401, HBody.json (Json.obj [("error", Json.str "Unauthorized")])⟩, 0)) ∧
    (∀ (e : Env) (w : World) (req : Req) (tok : String),
        noteIdOf req ≠ "" → extractIdToken req = Except.ok tok →
        w.verify tok = none →
        summarizeNote e w req =
          (⟨401, HBody.json (Json.obj [("error", Json.str "Unauthorized")])⟩, 0)) := by
  refine ⟨?_, ?_, ?_, ?_, ?_⟩
  · intro w req m h
    simp [getUserNotes, h]
  · intro w req tok hex hver
    simp [getUserNotes, hex, hver]
  · intro w req tok uid hex hver hlist
    simp [getUserNotes, hex, hver, hlist]
  · intro e w req m hid hex
    simp [summarizeNote, hid, hex]
  · intro e w req tok hid hex hver
    simp [summarizeNote, hid, hex, hver]

def reqOk : Req := ⟨some "n1", none, some "Bearer abc", none⟩

def wListFail : World :=
  ⟨fun t => if t = "abc" then some "u1" else none,
   fun _ => Except.error (), fun _ _ => Except.error (), Except.error ()⟩

theorem claim_C6_witness :
    getUserNotes wListFail reqOk = ⟨401, HBody.text "Unauthorized"⟩ ∧
    summarizeNote envPlain wEmpty reqOk =
      (⟨401, HBody.json (Json.obj [("error", Json.str "Unauthorized")])⟩, 0) :=
  ⟨claim_C6_unauthorized_shapes.2.2.1 wListFail reqOk "abc" "u1" (by rfl) (by rfl)
     (by rfl),
   claim_C6_unauthorized_shapes.2.2.2.2 envPlain wEmpty reqOk "abc" (by decide)
     (by rfl) (by rfl)⟩

/-- C4: the note text is `content` when populated, else `text`, else
`body`, in that priority order; a fetched note with no populated field
among the three is answered with HTTP 400
`{error: "Note has no text field (expected content/text/body)"}` and no
summarization is performed (no backend call, count 0). -/
theorem claim_C4_field_priority :
    (∀ (d : NoteDoc) (c : String), d.content = some c → c ≠ "" →
        noteText d = c) ∧
    (∀ (d : NoteDoc) (t : String), (d.content = none ∨ d.content = some "") →
        d.text = some t → t ≠ "" → noteText d = t) ∧
    (∀ (d : NoteDoc) (b : String), (d.content = none ∨ d.content = some "") →
        (d.text = none ∨ d.text = some "") → d.body = some b → b ≠ "" →
        noteText d = b) ∧
    (∀ (e : Env) (w : World) (req : Req) (tok uid : String) (d : NoteDoc),
        extractIdToken req = Except.ok tok → w.verify tok = some uid →
        noteIdOf req ≠ "" →
        w.getNote uid (noteIdOf req) = Except.ok (some d) →
        noteText d = "" →
        summarizeNote e w req =
          (⟨400, HBody.json (Json.obj [("error",
            Json.str "Note has no text field (expected content/text/body)")])⟩, 0)) := by
  refine ⟨?_, ?_, ?_, ?_⟩
  · intro d c hc hne
    simp [noteText, jsOrStr, hc, hne]
  · intro d t hc ht hne
    cases hc with
    | inl h => simp [noteText, jsOrStr, h, ht, hne]
    | inr h => simp [noteText, jsOrStr, h, ht, hne]
  · intro d b hc ht hb hne
    cases hc with
    | inl h =>
      cases ht with
      | inl h2 => simp [noteText, jsOrStr, h, h2, hb, hne]
      | inr h2 => simp [noteText, jsOrStr, h, h2, hb, hne]
    | inr h =>
      cases ht with
      | inl h2 => simp [noteText, jsOrStr, h, h2, hb, hne]
      | inr h2 => simp [noteText, jsOrStr, h, h2, hb, hne]
  · intro e w req tok uid d hex hver hid hget htext
    simp [summarizeNote, hid, hex, hver, hget, htext]

def wNoText : World :=
  ⟨fun t => if t = "abc" then some "u1" else none,
   fun _ => Except.ok [],
   fun u i => if u = "u1" ∧ i = "n1" then Except.ok (some ⟨none, some "", none⟩)
              else Except.ok none,
   Except.error ()⟩

theorem claim_C4_witness :
    noteText ⟨none, some "", none⟩ = "" ∧
    summarizeNote envPlain wNoText reqOk =
      (⟨400, HBody.json (Json.obj [("error",
        Json.str "Note has no text field (expected content/text/body)")])⟩, 0) :=
  ⟨by decide,
   claim_C4_field_priority.2.2.2 envPlain wNoText reqOk "abc" "u1"
     ⟨none, some "", none⟩ (by rfl) (by rfl) (by decide) (by rfl) (by decide)⟩

/-- C7: on the live path (authentication succeeded, the note exists with
non-empty text, force-mock unset, an API key configured), a non-success
reply from the summarization backend is answered with HTTP 502
`{error: "Failed to summarize", details: d}` where `d` is exactly the
backend's raw response body text, and the backend was called exactly once
(no retry). -/
theorem claim_C7_backend_non_success :
    ∀ (e : Env) (w : World) (req : Req) (tok uid : String) (d : NoteDoc)
      (r : FetchR),
      extractIdToken req = Except.ok tok → w.verify tok = some uid →
      noteIdOf req ≠ "" →
      w.getNote uid (noteIdOf req) = Except.ok (some d) →
      noteText d ≠ "" →
      e.USE_MOCK_OPENAI ≠ some "1" → apiKeyOf e ≠ "" →
      w.fetchResp = Except.ok r → r.ok = false →
      summarizeNote e w req =
        (⟨502, HBody.json (Json.obj [("error", Json.str "Failed to summarize"),
          ("details", Json.str r.bodyText)])⟩, 1) := by
  intro e w req tok uid d r hex hver hid hget htext hmock hkey hfetch hok
  simp [summarizeNote, hid, hex, hver, hget, htext, hmock, hkey, hfetch, hok]

def envLive : Env := ⟨none, none, none, some "sk-key", none, none⟩

def wFetchBad : World :=
  ⟨fun t => if t = "abc" then some "u1" else none,
   fun _ => Except.ok [],
   fun u i => if u = "u1" ∧ i = "n1" then
                Except.ok (some ⟨some "Hola mundo. Otra frase.", none, none⟩)
              else Except.ok none,
   Except.ok ⟨false, "rate limited", Except.ok none⟩⟩

theorem claim_C7_witness :
    summarizeNote envLive wFetchBad reqOk =
      (⟨502, HBody.json (Json.obj [("error", Json.str "Failed to summarize"),
        ("details", Json.str "rate limited")])⟩, 1) :=
  claim_C7_backend_non_success envLive wFetchBad reqOk "abc" "u1"
    ⟨some "Hola mundo. Otra frase.", none, none⟩ ⟨false, "rate limited", Except.ok none⟩
    (by rfl) (by rfl) (by decide) (by rfl) (by decide) (by decide) (by decide)
    (by rfl) (by rfl)

/-- C1: once authentication succeeded, the note exists and its extracted
text is non-empty, then (a) if the force-mock flag is set, or the process
runs in emulator mode with no API key configured, the handler answers 200
with body `{id, summary, mocked: true}` where the summary is
`mockSummarize` of the text, and it issues zero calls to the summarization
backend; and (b) on the live success path it answers 200 with body
`{id, summary}` carrying no `mocked` field. -/
theorem claim_C1_mock_gate :
    ∀ (e : Env) (w : World) (req : Req) (tok uid : String) (d : NoteDoc),
      extractIdToken req = Except.ok tok → w.verify tok = some uid →
      noteIdOf req ≠ "" →
      w.getNote uid (noteIdOf req) = Except.ok (some d) →
      noteText d ≠ "" →
      ((e.USE_MOCK_OPENAI = some "1" ∨ (isEmulator e = true ∧ apiKeyOf e = "")) →
        summarizeNote e w req =
          (⟨200, HBody.json (mockedBody (noteIdOf req)
            (mockSummarize (noteText d)))⟩, 0)) ∧
      (∀ (r : FetchR) (c : Option String),
        e.USE_MOCK_OPENAI ≠ some "1" → apiKeyOf e ≠ "" →
        w.fetchResp = Except.ok r → r.ok = true → r.jsonContent = Except.ok c →
        summarizeNote e w req =
          (⟨200, HBody.json (liveBody (noteIdOf req) (liveSummary c))⟩, 1)) := by
  intro e w req tok uid d hex hver hid hget htext
  constructor
  · intro hcond
    cases hcond with
    | inl h => simp [summarizeNote, hid, hex, hver, hget, htext, h, mockedBody]
    | inr h => simp [summarizeNote, hid, hex, hver, hget, htext, h.1, h.2, mockedBody]
  · intro r c hmock hkey hfetch hok hjson
    simp [summarizeNote, hid, hex, hver, hget, htext, hmock, hkey, hfetch, hok, hjson]

def envMock : Env := ⟨none, none, none, none, none, some "1"⟩

def wNote : World :=
  ⟨fun t => if t = "abc" then some "u1" else none,
   fun _ => Except.ok [],
   fun u i => if u = "u1" ∧ i = "n1" then
                Except.ok (some ⟨some "Hola mundo. Otra frase.", none, none⟩)
              else Except.ok none,
   Except.ok ⟨true, "", Except.ok (some " Una frase. ")⟩⟩

theorem claim_C1_witness :
    summarizeNote envMock wNote reqOk =
      (⟨200, HBody.json (mockedBody "n1"
        (mockSummarize "Hola mundo. Otra frase."))⟩, 0) ∧
    summarizeNote envLive wNote reqOk =
      (⟨200, HBody.json (liveBody "n1" (liveSummary (some " Una frase. ")))⟩, 1) :=
  ⟨(claim_C1_mock_gate envMock wNote reqOk "abc" "u1"
      ⟨some "Hola mundo. Otra frase.", none, none⟩ (by rfl) (by rfl) (by decide)
      (by rfl) (by decide)).1 (Or.inl rfl),
   (claim_C1_mock_gate envLive wNote reqOk "abc" "u1"
      ⟨some "Hola mundo. Otra frase.", none, none⟩ (by rfl) (by rfl) (by decide)
      (by rfl) (by decide)).2 ⟨true, "", Except.ok (some " Una frase. ")⟩
      (some " Una frase. ") (by decide) (by decide) (by rfl) (by rfl) (by rfl)⟩

end EmberTech
